import Mathlib

/-!
Shallow embedding of the Signal & Position Lifecycle Engine of the
analytic-Bot repository (a JS DEX trading bot), together with proofs of the
behavioural claims about it.

Numbers that are JS floating-point `number`s in the source are modelled as
rationals (`ℚ`); timestamps (`Date.now()` milliseconds) as naturals (`ℕ`);
JS objects used as string-keyed maps as association lists
`List (String × α)`; randomness (`Math.random()` draws) as explicit `rand`
parameters constrained to `[0, 1]`; thrown JS errors as `Except String`.
`Number.prototype.toFixed(2)` display rounding is modelled as rounding the
rational to two decimal places (half away from zero).

Source files embedded: `src/risk/riskManager.js`, `src/automation/state.js`,
`src/execution/paperTrader.js`, `src/strategy/volumeSpike.js`,
`src/data/priceEngine.js`, with the configuration shape of
`src/config/index.js`.
-/

set_option maxHeartbeats 1000000

/-- Model of JS `x.toFixed(2)` read back as a number: round to two decimal
places, half away from zero. The source uses the resulting string only for
storage/display; its numeric content is this rounded rational. -/
def jsToFixed2 (q : ℚ) : ℚ :=
  if 0 ≤ q then (⌊q * 100 + 1 / 2⌋ : ℚ) / 100 else -((⌊-q * 100 + 1 / 2⌋ : ℚ) / 100)

/-! ## Configuration (`src/config/index.js`)

Only the fields consumed by the embedded core are modelled. -/

/-- Embeds `config.risk` of `src/config/index.js`. -/
structure RiskConfig where
  maxTradesPerDay : ℕ
  riskPerTrade : ℚ
  maxDailyDrawdown : ℚ
  stopLossPercent : ℚ
  maxHoldMinutes : ℕ
deriving DecidableEq

/-- Embeds `config.strategy` of `src/config/index.js`. -/
structure StrategyConfig where
  volumeMultiplier : ℚ
  minPriceChange : ℚ
deriving DecidableEq

/-- Embeds the parts of the singleton `config` object used by the core:
`config.strategy`, `config.takeProfit.multiplier`, `config.risk` and
`config.execution`. -/
structure BotConfig where
  strategy : StrategyConfig
  takeProfitMultiplier : ℚ
  risk : RiskConfig
  maxRetries : ℕ
  retryDelayMs : ℚ
deriving DecidableEq

/-! ## Risk manager (`src/risk/riskManager.js`)

The module-level mutable `dailyState` is made an explicit value threaded
through the functions; the ambient wall clock (`new Date().toDateString()`)
is an explicit `today : String` argument. -/

/-- Embeds the module-level `dailyState` object of `src/risk/riskManager.js`.
`date` holds the `toDateString()` value of the day the state belongs to. -/
structure DailyState where
  tradeCount : ℕ
  totalPnL : ℚ
  startBalance : ℚ
  date : String
deriving DecidableEq

/-- Embeds `checkDailyReset` of `src/risk/riskManager.js`: if the stored day
differs from today, reset the counters and roll the closed day's PnL into the
new day's starting balance. -/
def checkDailyReset (today : String) (s : DailyState) : DailyState :=
  if s.date ≠ today then
    { tradeCount := 0
      totalPnL := 0
      startBalance := s.startBalance + s.totalPnL
      date := today }
  else s

/-- Result shape of `canTrade` in `src/risk/riskManager.js`. -/
structure TradeCheck where
  allowed : Bool
  reason : String
deriving DecidableEq

/-- Embeds `canTrade` of `src/risk/riskManager.js`. The source mutates the
module-level `dailyState` through `checkDailyReset`; here the updated state is
returned alongside the check result. -/
def canTrade (cfg : RiskConfig) (today : String) (s : DailyState) :
    DailyState × TradeCheck :=
  let s := checkDailyReset today s
  if s.tradeCount ≥ cfg.maxTradesPerDay then
    (s, { allowed := false
          reason := "Max daily trades reached (" ++ toString cfg.maxTradesPerDay ++ ")" })
  else
    let currentDrawdown := s.totalPnL / s.startBalance * 100
    if currentDrawdown ≤ -cfg.maxDailyDrawdown then
      (s, { allowed := false
            reason := "Max daily drawdown reached (" ++ toString cfg.maxDailyDrawdown ++ "%)" })
    else
      (s, { allowed := true, reason := "" })

/-- Result shape of `calculatePositionSize` in `src/risk/riskManager.js`.
`stopPercent` is `toFixed(2)`-formatted in the source, modelled by
`jsToFixed2`. -/
structure Sizing where
  positionSizeUsd : ℚ
  tokenAmount : ℚ
  riskAmount : ℚ
  stopPercent : ℚ
deriving DecidableEq

/-- Embeds `calculatePositionSize` of `src/risk/riskManager.js`. Note that the
source computes `tokenAmount` from the uncapped `positionSize`, while the
returned `positionSizeUsd` is capped at 25% of the balance. -/
def calculatePositionSize (cfg : RiskConfig) (balance entryPrice stopLoss : ℚ) :
    Sizing :=
  let riskAmount := balance * (cfg.riskPerTrade / 100)
  let stopDistance := |entryPrice - stopLoss|
  let stopPercent := stopDistance / entryPrice * 100
  let positionSize := riskAmount / (stopPercent / 100)
  let tokenAmount := positionSize / entryPrice
  { positionSizeUsd := min positionSize (balance * (25 / 100))
    tokenAmount := tokenAmount
    riskAmount := riskAmount
    stopPercent := jsToFixed2 stopPercent }

/-- Embeds `recordTrade` of `src/risk/riskManager.js`. -/
def recordTrade (today : String) (s : DailyState) (pnl : ℚ) : DailyState :=
  let s := checkDailyReset today s
  { s with tradeCount := s.tradeCount + 1, totalPnL := s.totalPnL + pnl }

/-! ## Market snapshots and signals (`src/data/priceEngine.js`, `src/strategy/volumeSpike.js`) -/

/-- Token descriptor inside a snapshot (`baseToken` of DexScreener data). -/
structure TokenInfo where
  symbol : String
  address : String
deriving DecidableEq

/-- Price block of a market snapshot. -/
structure PriceInfo where
  usd : ℚ
  change5m : ℚ
deriving DecidableEq

/-- Volume block of a market snapshot. -/
structure VolumeInfo where
  m5 : ℚ
  h24 : ℚ
deriving DecidableEq

/-- Liquidity block of a market snapshot. -/
structure LiquidityInfo where
  usd : ℚ
deriving DecidableEq

/-- Embeds the market snapshot shape produced by `getMarketSnapshot` of
`src/data/priceEngine.js`, restricted to the fields read by the strategy. -/
structure Snapshot where
  chain : String
  pairAddress : String
  baseToken : TokenInfo
  price : PriceInfo
  volume : VolumeInfo
  liquidity : LiquidityInfo
  avgVolume1h : ℚ
  volumeRatio : ℚ
deriving DecidableEq

/-- Embeds the `signal` object built by `analyzeForSignal` of
`src/strategy/volumeSpike.js`. `volumeRatio` and `priceChange5m` are stored
`toFixed(2)`-formatted in the source, modelled by `jsToFixed2`. -/
structure Signal where
  type : String
  chain : String
  pairAddress : String
  token : String
  tokenAddress : String
  entryPrice : ℚ
  volumeRatio : ℚ
  priceChange5m : ℚ
  takeProfit : ℚ
  stopLoss : ℚ
  maxHoldUntil : ℕ
  liquidity : ℚ
  volume24h : ℚ
  timestamp : ℕ
  strength : ℕ
deriving DecidableEq

/-- Embeds `MIN_LIQUIDITY_USD` of `src/strategy/volumeSpike.js`. -/
def MIN_LIQUIDITY_USD : ℚ := 5000

/-- Embeds `MIN_VOLUME_24H` of `src/strategy/volumeSpike.js`. -/
def MIN_VOLUME_24H : ℚ := 10000

/-- Embeds `calculateSignalStrength` of `src/strategy/volumeSpike.js`. -/
def calculateSignalStrength (volumeRatio priceChange liquidity : ℚ) : ℕ :=
  let volScore : ℕ :=
    if volumeRatio ≥ 10 then 40 else if volumeRatio ≥ 5 then 30
    else if volumeRatio ≥ 3 then 20 else 0
  let priceScore : ℕ :=
    if priceChange ≥ 10 then 30 else if priceChange ≥ 5 then 20
    else if priceChange ≥ 2 then 10 else 0
  let liqScore : ℕ :=
    if liquidity ≥ 100000 then 30 else if liquidity ≥ 50000 then 20
    else if liquidity ≥ 10000 then 10 else 0
  min (volScore + priceScore + liqScore) 100

/-- Embeds `analyzeForSignal` of `src/strategy/volumeSpike.js`. The external
contract-safety verdict (`isTokenSafe` of `src/risk/contractAnalyzer.js`) is a
parameter; the ambient `Date.now()` is the explicit `now`. The source's
null-guard on the snapshot argument has no counterpart since `Snapshot` is a
total value. -/
def analyzeForSignal (isTokenSafe : Snapshot → Bool) (cfg : BotConfig) (now : ℕ)
    (snapshot : Snapshot) : Option Signal :=
  if snapshot.liquidity.usd < MIN_LIQUIDITY_USD then none
  else if snapshot.volume.h24 < MIN_VOLUME_24H then none
  else if ¬ isTokenSafe snapshot then none
  else
    let hasVolumeSpike := snapshot.volumeRatio ≥ cfg.strategy.volumeMultiplier
    let hasPriceIncrease := snapshot.price.change5m ≥ cfg.strategy.minPriceChange
    if hasVolumeSpike ∧ hasPriceIncrease then
      some
        { type := "VOLUME_SPIKE_ENTRY"
          chain := snapshot.chain
          pairAddress := snapshot.pairAddress
          token := snapshot.baseToken.symbol
          tokenAddress := snapshot.baseToken.address
          entryPrice := snapshot.price.usd
          volumeRatio := jsToFixed2 snapshot.volumeRatio
          priceChange5m := jsToFixed2 snapshot.price.change5m
          takeProfit := snapshot.price.usd * cfg.takeProfitMultiplier
          stopLoss := snapshot.price.usd * (1 - cfg.risk.stopLossPercent / 100)
          maxHoldUntil := now + cfg.risk.maxHoldMinutes * 60 * 1000
          liquidity := snapshot.liquidity.usd
          volume24h := snapshot.volume.h24
          timestamp := now
          strength :=
            calculateSignalStrength snapshot.volumeRatio snapshot.price.change5m
              snapshot.liquidity.usd }
    else none

/-- Exit decision object returned by `checkExitConditions` of
`src/strategy/volumeSpike.js`. `profitPercent` is `toFixed(2)`-formatted in the
source, modelled by `jsToFixed2`. -/
structure ExitSignal where
  type : String
  reason : String
  exitPrice : ℚ
  profitPercent : ℚ
  timestamp : ℕ
deriving DecidableEq

/-- Embeds `checkExitConditions` of `src/strategy/volumeSpike.js`. The
position shape is introduced below; here only the fields it reads are needed,
so the function is stated over them via the `Position` structure defined next.
-/
def exitTakeProfitReason (cfg : BotConfig) : String :=
  "Price reached " ++ toString cfg.takeProfitMultiplier ++ "x target"

/-- Stop-loss exit reason string of `checkExitConditions`. -/
def exitStopLossReason (cfg : BotConfig) : String :=
  "Price dropped below " ++ toString cfg.risk.stopLossPercent ++ "% stop loss"

/-- Time-limit exit reason string of `checkExitConditions`. -/
def exitTimeLimitReason (cfg : BotConfig) : String :=
  "Max hold time (" ++ toString cfg.risk.maxHoldMinutes ++ "m) exceeded"

/-! ## Position/state store (`src/automation/state.js`)

The JS string-keyed objects `state.balances` and `state.positions` are
modelled as association lists; JS property assignment replaces an existing
key's value in place and appends a new key, and `delete` removes the key. -/

/-- JS object property assignment on an association list: replace the value of
an existing key in place, append the key otherwise. -/
def setKey {α : Type} : List (String × α) → String → α → List (String × α)
  | [], k, v => [(k, v)]
  | (k', v') :: rest, k, v =>
      if k' = k then (k, v) :: rest else (k', v') :: setKey rest k v

/-- JS object property read on an association list. -/
def lookupKey {α : Type} : List (String × α) → String → Option α
  | [], _ => none
  | (k', v') :: rest, k => if k' = k then some v' else lookupKey rest k

/-- JS `delete obj[k]` on an association list. -/
def eraseKey {α : Type} : List (String × α) → String → List (String × α)
  | [], _ => []
  | (k', v') :: rest, k => if k' = k then rest else (k', v') :: eraseKey rest k

/-- Embeds the position objects stored in `state.positions` of
`src/automation/state.js`, as created by `executePaperBuy` and `addPosition`.
-/
structure Position where
  chain : String
  pairAddress : String
  token : String
  tokenAddress : String
  entryPrice : ℚ
  tokenAmount : ℚ
  positionSizeUsd : ℚ
  takeProfit : ℚ
  stopLoss : ℚ
  maxHoldUntil : ℕ
  signal : Signal
  id : String
  status : String
  openedAt : ℕ
deriving DecidableEq

/-- Embeds the closed-trade records appended to `state.trades` by
`closePosition` of `src/automation/state.js` (a spread of the position plus the
exit fields). -/
structure Trade extends Position where
  exitPrice : ℚ
  exitReason : String
  pnl : ℚ
  pnlPercent : ℚ
  closedAt : ℕ
  holdTime : ℕ
deriving DecidableEq

/-- Embeds the in-memory `state` object of `src/automation/state.js`
(the `watchlist` and `lastUpdated` fields play no part in the claims and are
omitted; disk persistence via `saveState` is I/O and outside the model). -/
structure BotState where
  balances : List (String × ℚ)
  positions : List (String × Position)
  trades : List Trade
  totalPnL : ℚ
deriving DecidableEq

/-- Embeds `getBalance` of `src/automation/state.js`
(`state.balances[chainId] || 0`). -/
def getBalance (st : BotState) (chainId : String) : ℚ :=
  match lookupKey st.balances chainId with
  | some v => v
  | none => 0

/-- Embeds `updateBalance` of `src/automation/state.js`. -/
def updateBalance (st : BotState) (chainId : String) (amount : ℚ) : BotState :=
  { st with balances := setKey st.balances chainId (getBalance st chainId + amount) }

/-- Embeds `addPosition` of `src/automation/state.js`; `Date.now()` is the
explicit `now`. Returns the updated state together with the generated position
id. -/
def addPosition (now : ℕ) (st : BotState) (position : Position) :
    BotState × String :=
  let positionId := position.chain ++ ":" ++ position.pairAddress ++ ":" ++ toString now
  ({ st with
      positions :=
        setKey st.positions positionId
          { position with id := positionId, status := "open", openedAt := now } },
    positionId)

/-- Embeds `closePosition` of `src/automation/state.js`: look the position up
(returning `null` and leaving the state untouched when absent), compute PnL,
append the trade record, add the PnL to `totalPnL`, credit the PnL to the
chain balance via `updateBalance`, and delete the open position. -/
def closePosition (now : ℕ) (st : BotState) (positionId : String)
    (exitPrice : ℚ) (exitReason : String) : BotState × Option Trade :=
  match lookupKey st.positions positionId with
  | none => (st, none)
  | some position =>
      let pnl := (exitPrice - position.entryPrice) * position.tokenAmount
      let pnlPercent := (exitPrice - position.entryPrice) / position.entryPrice * 100
      let trade : Trade :=
        { position with
            exitPrice := exitPrice
            exitReason := exitReason
            pnl := pnl
            pnlPercent := pnlPercent
            closedAt := now
            holdTime := now - position.openedAt }
      let st := { st with trades := st.trades ++ [trade], totalPnL := st.totalPnL + pnl }
      let st := updateBalance st position.chain pnl
      let st := { st with positions := eraseKey st.positions positionId }
      (st, some trade)

/-- Embeds `checkExitConditions` of `src/strategy/volumeSpike.js`: take-profit,
stop-loss and time-limit checks in that order, first match winning; `null` when
none matches. `Date.now()` is the explicit `now`. The source's null-guard on
the arguments has no counterpart since both are total values here. -/
def checkExitConditions (cfg : BotConfig) (now : ℕ) (position : Position)
    (currentSnapshot : Snapshot) : Option ExitSignal :=
  let currentPrice := currentSnapshot.price.usd
  if currentPrice ≥ position.takeProfit then
    some
      { type := "EXIT_TAKE_PROFIT"
        reason := exitTakeProfitReason cfg
        exitPrice := currentPrice
        profitPercent :=
          jsToFixed2 ((currentPrice - position.entryPrice) / position.entryPrice * 100)
        timestamp := now }
  else if currentPrice ≤ position.stopLoss then
    some
      { type := "EXIT_STOP_LOSS"
        reason := exitStopLossReason cfg
        exitPrice := currentPrice
        profitPercent :=
          jsToFixed2 ((currentPrice - position.entryPrice) / position.entryPrice * 100)
        timestamp := now }
  else if now ≥ position.maxHoldUntil then
    some
      { type := "EXIT_TIME_LIMIT"
        reason := exitTimeLimitReason cfg
        exitPrice := currentPrice
        profitPercent :=
          jsToFixed2 ((currentPrice - position.entryPrice) / position.entryPrice * 100)
        timestamp := now }
  else none

/-! ## Paper trader (`src/execution/paperTrader.js`)

The `Math.random()` draws (slippage magnitude, simulated failure) become
explicit parameters: a rational `rand ∈ [0, 1]` for the slippage draw and a
`fail : Bool` for the failure draw of each attempt. Latency simulation is pure
waiting and has no state effect, so it has no counterpart in the model. -/

/-- Embeds `MIN_SLIPPAGE` of `src/execution/paperTrader.js` (0.1%). -/
def MIN_SLIPPAGE : ℚ := 1 / 1000

/-- Embeds `MAX_SLIPPAGE` of `src/execution/paperTrader.js` (0.5%). -/
def MAX_SLIPPAGE : ℚ := 5 / 1000

/-- Embeds `calculateSlippage` of `src/execution/paperTrader.js`, with the
`Math.random()` draw as the explicit `rand`: buys fill above the quoted price,
sells below it. -/
def calculateSlippage (rand : ℚ) (price : ℚ) (isBuy : Bool) : ℚ :=
  let slippage := MIN_SLIPPAGE + rand * (MAX_SLIPPAGE - MIN_SLIPPAGE)
  if isBuy then price * (1 + slippage) else price * (1 - slippage)

/-- Error message thrown by a simulated random failure in
`src/execution/paperTrader.js`. -/
def simulatedFailureMsg : String := "Simulated RPC failure"

/-- Error message thrown by the insufficient-balance check of
`executePaperBuy` (the source interpolates the two amounts; the model keeps
the fixed prefix). -/
def insufficientBalanceMsg : String := "Insufficient balance"

/-- Error carried by the retry driver when every attempt failed, from
`executeWithRetry` of `src/execution/paperTrader.js`. -/
def maxRetriesMsg : String := "Max retries exceeded"

/-- Result shape of `executeWithRetry` of `src/execution/paperTrader.js`:
`{success, result | error, attempts}`. -/
structure RetryResult (α : Type) where
  success : Bool
  result : Option α
  error : Option String
  attempts : ℕ
deriving DecidableEq

/-- Loop body of `executeWithRetry` of `src/execution/paperTrader.js`,
starting at attempt number `attempt`. The executed operation is modelled as
`f : ℕ → Except String α` giving the outcome of each numbered invocation.
Besides the result, the model returns the list of attempt numbers at which
`f` was invoked and the list of backoff delays waited
(`delayMs * 1.5 ^ (attempt - 1)` after each failed non-final attempt). -/
def executeWithRetryGo {α : Type} (f : ℕ → Except String α) (maxRetries : ℕ)
    (delayMs : ℚ) (attempt : ℕ) : RetryResult α × List ℕ × List ℚ :=
  if attempt ≤ maxRetries then
    match f attempt with
    | Except.ok v =>
        ({ success := true, result := some v, error := none, attempts := attempt },
          [attempt], [])
    | Except.error _ =>
        let ds : List ℚ :=
          if attempt < maxRetries then [delayMs * (3 / 2 : ℚ) ^ (attempt - 1)] else []
        let r := executeWithRetryGo f maxRetries delayMs (attempt + 1)
        (r.1, attempt :: r.2.1, ds ++ r.2.2)
  else
    ({ success := false, result := none, error := some maxRetriesMsg,
        attempts := maxRetries },
      [], [])
termination_by maxRetries + 1 - attempt
decreasing_by omega

/-- Embeds `executeWithRetry` of `src/execution/paperTrader.js`: up to
`maxRetries` attempts starting at attempt 1. -/
def executeWithRetry {α : Type} (f : ℕ → Except String α) (maxRetries : ℕ)
    (delayMs : ℚ) : RetryResult α × List ℕ × List ℚ :=
  executeWithRetryGo f maxRetries delayMs 1

/-- Result object of a successful attempt of `executePaperBuy` of
`src/execution/paperTrader.js`. -/
structure BuyFill where
  positionId : String
  executionPrice : ℚ
  tokensReceived : ℚ
  positionSizeUsd : ℚ
  slippagePercent : ℚ
deriving DecidableEq

/-- Embeds one attempt of `executePaperBuy` of `src/execution/paperTrader.js`
(the async closure handed to `executeWithRetry`): simulate failure, apply buy
slippage, check the balance, debit the position size, compute tokens received
at the slipped price and create the position. `rand` is the slippage draw,
`fail` the failure draw, `now` the ambient `Date.now()`. -/
def paperBuyAttempt (rand : ℚ) (fail : Bool) (now : ℕ) (signal : Signal)
    (positionSizeUsd : ℚ) (st : BotState) : Except String (BotState × BuyFill) :=
  if fail then Except.error simulatedFailureMsg
  else
    let executionPrice := calculateSlippage rand signal.entryPrice true
    let balance := getBalance st signal.chain
    if balance < positionSizeUsd then Except.error insufficientBalanceMsg
    else
      let st := updateBalance st signal.chain (-positionSizeUsd)
      let tokensReceived := positionSizeUsd / executionPrice
      let position : Position :=
        { chain := signal.chain
          pairAddress := signal.pairAddress
          token := signal.token
          tokenAddress := signal.tokenAddress
          entryPrice := executionPrice
          tokenAmount := tokensReceived
          positionSizeUsd := positionSizeUsd
          takeProfit := signal.takeProfit
          stopLoss := signal.stopLoss
          maxHoldUntil := signal.maxHoldUntil
          signal := signal
          id := ""
          status := ""
          openedAt := 0 }
      let r := addPosition now st position
      Except.ok
        (r.1,
          { positionId := r.2
            executionPrice := executionPrice
            tokensReceived := tokensReceived
            positionSizeUsd := positionSizeUsd
            slippagePercent :=
              (executionPrice - signal.entryPrice) / signal.entryPrice * 100 })

/-- Result object of a successful attempt of `executePaperSell` of
`src/execution/paperTrader.js`. -/
structure SellFill where
  executionPrice : ℚ
  proceeds : ℚ
  pnl : ℚ
  pnlPercent : ℚ
  trade : Option Trade
deriving DecidableEq

/-- Embeds one attempt of `executePaperSell` of `src/execution/paperTrader.js`
(the async closure handed to `executeWithRetry`): simulate failure, apply sell
slippage, compute proceeds and PnL, credit the proceeds to the chain balance,
close the position through `closePosition` of `src/automation/state.js`
(which credits the PnL to the balance a second time), and record the trade
with the risk manager. Returns the updated bot state, the updated daily risk
state and the fill. -/
def paperSellAttempt (rand : ℚ) (fail : Bool) (now : ℕ) (today : String)
    (position : Position) (currentPrice : ℚ) (reason : String)
    (st : BotState) (risk : DailyState) :
    Except String (BotState × DailyState × SellFill) :=
  if fail then Except.error simulatedFailureMsg
  else
    let executionPrice := calculateSlippage rand currentPrice false
    let proceeds := position.tokenAmount * executionPrice
    let pnl := proceeds - position.positionSizeUsd
    let pnlPercent := pnl / position.positionSizeUsd * 100
    let st := updateBalance st position.chain proceeds
    let r := closePosition now st position.id executionPrice reason
    let risk := recordTrade today risk pnl
    Except.ok
      (r.1, risk,
        { executionPrice := executionPrice
          proceeds := proceeds
          pnl := pnl
          pnlPercent := pnlPercent
          trade := r.2 })

/-! ## Candle aggregator (`src/data/priceEngine.js`)

`updateCandle` maintains one rolling candle list per `(chain, pair)` key of
`candleStorage`; the model works on a single pair's list. The price data read
from the snapshot is `priceData.price.usd` and `priceData.volume.m5`. -/

/-- Embeds `MAX_CANDLES` of `src/data/priceEngine.js`. -/
def MAX_CANDLES : ℕ := 100

/-- Embeds the candle objects of `src/data/priceEngine.js`. The source field
`open` is a Lean keyword and is rendered `openPrice`. -/
structure Candle where
  periodStart : ℕ
  timestamp : ℕ
  openPrice : ℚ
  high : ℚ
  low : ℚ
  close : ℚ
  volume : ℚ
deriving DecidableEq

/-- Millisecond width of one candle period (`candleInterval` in
`updateCandle` of `src/data/priceEngine.js`: 5 minutes). -/
def candleIntervalMs : ℕ := 5 * 60 * 1000

/-- The aligned period start computed by `updateCandle`:
`Math.floor(now / candleInterval) * candleInterval` (natural division is the
floor). -/
def alignPeriod (now : ℕ) : ℕ := now / candleIntervalMs * candleIntervalMs

/-- The fresh candle created by `updateCandle` of `src/data/priceEngine.js`
when the newest stored candle's period does not match. -/
def freshCandle (now : ℕ) (priceUsd volM5 : ℚ) : Candle :=
  { periodStart := alignPeriod now
    timestamp := now
    openPrice := priceUsd
    high := priceUsd
    low := priceUsd
    close := priceUsd
    volume := volM5 }

/-- The in-place mutation of the newest candle performed by `updateCandle`
when its period matches the current aligned period. -/
def mutateCandle (now : ℕ) (priceUsd volM5 : ℚ) (c : Candle) : Candle :=
  { c with
      high := max c.high priceUsd
      low := min c.low priceUsd
      close := priceUsd
      volume := volM5
      timestamp := now }

/-- Embeds `updateCandle` of `src/data/priceEngine.js` on one pair's candle
list: if the newest candle's period matches the current aligned period its
high/low/close/volume are updated in place, otherwise a fresh candle is
appended and the oldest is shifted off once the list exceeds `MAX_CANDLES`.
`Date.now()` is the explicit `now`. -/
def updateCandle (now : ℕ) (priceUsd volM5 : ℚ) (candles : List Candle) :
    List Candle :=
  let periodStart := alignPeriod now
  match candles.getLast? with
  | some lastCandle =>
      if lastCandle.periodStart = periodStart then
        candles.dropLast ++ [mutateCandle now priceUsd volM5 lastCandle]
      else
        let pushed := candles ++ [freshCandle now priceUsd volM5]
        if pushed.length > MAX_CANDLES then pushed.tail else pushed
  | none =>
      let pushed := candles ++ [freshCandle now priceUsd volM5]
      if pushed.length > MAX_CANDLES then pushed.tail else pushed

/-- A sequence of snapshot updates `(now, price.usd, volume.m5)` folded
through `updateCandle`, as produced by successive `getPrice` calls for one
`(chain, pair)` key. -/
def applyUpdates (candles : List Candle) (updates : List (ℕ × ℚ × ℚ)) :
    List Candle :=
  updates.foldl (fun acc u => updateCandle u.1 u.2.1 u.2.2 acc) candles

/-- Invariant of one pair's candle list at wall-clock time `t`: the bound on
the list length, strictly increasing period starts, and every period start at
or before the current aligned period. -/
def CandleInv (t : ℕ) (candles : List Candle) : Prop :=
  candles.length ≤ MAX_CANDLES ∧
    List.Chain' (fun a b => a.periodStart < b.periodStart) candles ∧
    ∀ c ∈ candles, c.periodStart ≤ alignPeriod t

/-! ## Helper lemmas on the association-list state -/

/-- Reading a key back after assigning it yields the assigned value. -/
lemma lookupKey_setKey_self {α : Type} (l : List (String × α)) (k : String) (v : α) :
    lookupKey (setKey l k v) k = some v := by
  induction l with
  | nil => simp [setKey, lookupKey]
  | cons p rest ih =>
      by_cases h : p.1 = k
      · simp [setKey, lookupKey, h]
      · simpa [setKey, lookupKey, h] using ih

/-- `updateBalance` adds the delta to the chain it targets. -/
lemma getBalance_updateBalance_self (st : BotState) (chainId : String) (a : ℚ) :
    getBalance (updateBalance st chainId a) chainId = getBalance st chainId + a := by
  unfold getBalance updateBalance
  rw [lookupKey_setKey_self]
  rfl

/-- `addPosition` leaves the balances untouched. -/
lemma addPosition_balances (now : ℕ) (st : BotState) (position : Position) :
    ((addPosition now st position).1).balances = st.balances := rfl

/-! ## Claims about the risk gate -/

/-- C3: within one calendar day (no rollover) and with a positive day-start
balance, `canTrade` returns not-allowed whenever the day's trade count has
reached the configured maximum or the day's PnL as a fraction of the start
balance is at or below minus the configured drawdown limit. -/
theorem claim_C3 (cfg : RiskConfig) (today : String) (s : DailyState)
    (hday : s.date = today) (hbal : 0 < s.startBalance)
    (h : cfg.maxTradesPerDay ≤ s.tradeCount ∨
      s.totalPnL / s.startBalance ≤ -(cfg.maxDailyDrawdown / 100)) :
    ((canTrade cfg today s).2).allowed = false := by
  have hreset : checkDailyReset today s = s := by
    simp [checkDailyReset, hday]
  by_cases hc : cfg.maxTradesPerDay ≤ s.tradeCount
  · simp [canTrade, hreset, hc]
  · rcases h with h | h
    · exact absurd h hc
    · have h2 : s.totalPnL / s.startBalance * 100 ≤ -cfg.maxDailyDrawdown := by
        linarith
      simp [canTrade, hreset, hc, h2]

/-- Concrete day string used by the risk-gate witnesses. -/
def wDay : String := "Sun Oct 11 2026"

/-- Concrete risk configuration (the defaults of `src/config/index.js`). -/
def wRiskCfg : RiskConfig :=
  { maxTradesPerDay := 15
    riskPerTrade := 5
    maxDailyDrawdown := 15
    stopLossPercent := 5
    maxHoldMinutes := 30 }

/-- Concrete daily state that has exhausted the daily trade allowance. -/
def wDailyFull : DailyState :=
  { tradeCount := 15, totalPnL := 0, startBalance := 1000, date := wDay }

/-- Witness for C3 at a concrete exhausted day. -/
theorem claim_C3_witness :
    ((canTrade wRiskCfg wDay wDailyFull).2).allowed = false :=
  claim_C3 wRiskCfg wDay wDailyFull (by decide) (by norm_num [wDailyFull])
    (Or.inl (by decide))

/-- C7: `canTrade` applies the daily reset first; on a day change the state
resets to zero trades and zero PnL with the new start balance rolling in the
previous day's PnL, and while the day is unchanged a trade count at the
maximum makes every `canTrade` call return not-allowed. -/
theorem claim_C7 (cfg : RiskConfig) (today : String) (s : DailyState) :
    ((canTrade cfg today s).1 = checkDailyReset today s) ∧
    (s.date ≠ today →
      checkDailyReset today s =
        { tradeCount := 0, totalPnL := 0,
          startBalance := s.startBalance + s.totalPnL, date := today }) ∧
    (s.date = today → s.tradeCount = cfg.maxTradesPerDay →
      ((canTrade cfg today s).2).allowed = false) := by
  refine ⟨?_, ?_, ?_⟩
  · unfold canTrade
    dsimp only
    split
    · rfl
    · split <;> rfl
  · intro hne
    simp [checkDailyReset, hne]
  · intro hday hcount
    have hreset : checkDailyReset today s = s := by
      simp [checkDailyReset, hday]
    simp [canTrade, hreset, hcount]

/-- Concrete stale daily state for the C7 witness (previous day's date). -/
def wDailyStale : DailyState :=
  { tradeCount := 7, totalPnL := -50, startBalance := 1000,
    date := "Sat Oct 10 2026" }

/-- Witness for C7: the reset equation at a concrete stale state and the
blocked call at a concrete exhausted state. -/
theorem claim_C7_witness :
    (checkDailyReset wDay wDailyStale =
      { tradeCount := 0, totalPnL := 0, startBalance := 1000 + -50,
        date := wDay }) ∧
    ((canTrade wRiskCfg wDay wDailyFull).2).allowed = false := by
  constructor
  · have h := (claim_C7 wRiskCfg wDay wDailyStale).2.1 (by decide)
    simpa [wDailyStale] using h
  · exact (claim_C7 wRiskCfg wDay wDailyFull).2.2 (by decide) (by decide)

/-! ## Claims about position sizing -/

/-- C2 (amended): `calculatePositionSize` computes `tokenAmount` from the
uncapped position size, so `tokenAmount = positionSizeUsd / entryPrice` holds
exactly when the 25%-of-balance cap is not the binding value. -/
theorem claim_C2_amended (cfg : RiskConfig) (balance entryPrice stopLoss : ℚ) :
    ((calculatePositionSize cfg balance entryPrice stopLoss).tokenAmount =
      balance * (cfg.riskPerTrade / 100) /
          ((|entryPrice - stopLoss| / entryPrice * 100) / 100) / entryPrice) ∧
    (balance * (cfg.riskPerTrade / 100) /
          ((|entryPrice - stopLoss| / entryPrice * 100) / 100) ≤
        balance * (25 / 100) →
      (calculatePositionSize cfg balance entryPrice stopLoss).tokenAmount =
        (calculatePositionSize cfg balance entryPrice stopLoss).positionSizeUsd /
          entryPrice) := by
  constructor
  · rfl
  · intro hcap
    unfold calculatePositionSize
    dsimp only
    rw [min_eq_left hcap]

/-- Counterexample to C2 as stated: with the default 5% risk per trade,
balance 1000, entry 100 and stop 99, the uncapped size is 5000, the returned
USD size is capped at 250, and the returned token amount is 50, not
250 / 100 = 2.5. -/
theorem claim_C2_counterexample :
    (calculatePositionSize wRiskCfg 1000 100 99).tokenAmount ≠
      (calculatePositionSize wRiskCfg 1000 100 99).positionSizeUsd / 100 := by
  have h1 : |(100 : ℚ) - 99| = 1 := by norm_num
  simp only [calculatePositionSize, wRiskCfg, h1]
  norm_num

/-- Witness for C2 (amended) at a concrete non-binding input: balance 1000,
entry 100, stop 50 gives an uncapped size of 100 ≤ 250. -/
theorem claim_C2_witness :
    (calculatePositionSize wRiskCfg 1000 100 50).tokenAmount =
      (calculatePositionSize wRiskCfg 1000 100 50).positionSizeUsd / 100 :=
  (claim_C2_amended wRiskCfg 1000 100 50).2 (by norm_num [wRiskCfg])

/-! ## Claims about the state store -/

/-- C10: closing an unknown position id returns `null` and leaves the whole
state (balances, open positions, trade history, total PnL) unchanged. -/
theorem claim_C10 (now : ℕ) (st : BotState) (positionId : String)
    (exitPrice : ℚ) (exitReason : String)
    (h : lookupKey st.positions positionId = none) :
    closePosition now st positionId exitPrice exitReason = (st, none) := by
  unfold closePosition
  rw [h]

/-- Concrete position id absent from the witness state. -/
def wMissingId : String := "bsc:NOPE:1"

/-- Concrete manual exit reason. -/
def wManualReason : String := "manual"

/-- Concrete state with no open positions for the C10 witness. -/
def wStateEmpty : BotState :=
  { balances := [(r"bsc", (900 : ℚ))], positions := [], trades := [],
    totalPnL := 0 }

/-- Witness for C10 at a concrete state and missing id. -/
theorem claim_C10_witness :
    closePosition 10 wStateEmpty wMissingId 2 wManualReason =
      (wStateEmpty, none) :=
  claim_C10 10 wStateEmpty wMissingId 2 wManualReason (by decide)

/-! ## Claims about the exit evaluator -/

/-- C5: `checkExitConditions` follows strict first-match priority — take
profit at `price ≥ takeProfit` (regardless of the other conditions), then stop
loss at `price ≤ stopLoss`, then time limit at `now ≥ maxHoldUntil`; otherwise
no decision. Every decision carries the current price as exit price and the
profit percent relative to entry (`toFixed(2)`-rounded in the source, modelled
by `jsToFixed2`). -/
theorem claim_C5 (cfg : BotConfig) (now : ℕ) (position : Position)
    (snapshot : Snapshot) :
    (position.takeProfit ≤ snapshot.price.usd →
      checkExitConditions cfg now position snapshot =
        some
          { type := "EXIT_TAKE_PROFIT"
            reason := exitTakeProfitReason cfg
            exitPrice := snapshot.price.usd
            profitPercent :=
              jsToFixed2
                ((snapshot.price.usd - position.entryPrice) / position.entryPrice * 100)
            timestamp := now }) ∧
    (snapshot.price.usd < position.takeProfit →
      snapshot.price.usd ≤ position.stopLoss →
      checkExitConditions cfg now position snapshot =
        some
          { type := "EXIT_STOP_LOSS"
            reason := exitStopLossReason cfg
            exitPrice := snapshot.price.usd
            profitPercent :=
              jsToFixed2
                ((snapshot.price.usd - position.entryPrice) / position.entryPrice * 100)
            timestamp := now }) ∧
    (snapshot.price.usd < position.takeProfit →
      position.stopLoss < snapshot.price.usd →
      position.maxHoldUntil ≤ now →
      checkExitConditions cfg now position snapshot =
        some
          { type := "EXIT_TIME_LIMIT"
            reason := exitTimeLimitReason cfg
            exitPrice := snapshot.price.usd
            profitPercent :=
              jsToFixed2
                ((snapshot.price.usd - position.entryPrice) / position.entryPrice * 100)
            timestamp := now }) ∧
    (snapshot.price.usd < position.takeProfit →
      position.stopLoss < snapshot.price.usd →
      now < position.maxHoldUntil →
      checkExitConditions cfg now position snapshot = none) := by
  refine ⟨?_, ?_, ?_, ?_⟩
  · intro h1
    simp [checkExitConditions, h1]
  · intro h1 h2
    simp [checkExitConditions, not_le.mpr h1, h2]
  · intro h1 h2 h3
    simp [checkExitConditions, not_le.mpr h1, not_le.mpr h2, h3]
  · intro h1 h2 h3
    simp [checkExitConditions, not_le.mpr h1, not_le.mpr h2, Nat.not_le.mpr h3]

/-- Concrete bot configuration for the witnesses (the defaults of
`src/config/index.js`: 3x volume, 2% price move, 5x take profit). -/
def wBotCfg : BotConfig :=
  { strategy := { volumeMultiplier := 3, minPriceChange := 2 }
    takeProfitMultiplier := 5
    risk := wRiskCfg
    maxRetries := 3
    retryDelayMs := 2000 }

/-- Concrete signal for the witnesses: entry $2, take profit $10, stop loss
$1.90, max hold 30 minutes from time 0. -/
def wSig : Signal :=
  { type := "VOLUME_SPIKE_ENTRY"
    chain := "bsc"
    pairAddress := "PAIR1"
    token := "TKN"
    tokenAddress := "TADDR"
    entryPrice := 2
    volumeRatio := 4
    priceChange5m := 3
    takeProfit := 10
    stopLoss := 19 / 10
    maxHoldUntil := 1800000
    liquidity := 6000
    volume24h := 20000
    timestamp := 0
    strength := 30 }

/-- Concrete open position mirroring the spec's exit-evaluator example:
entry $1, take profit $5, stop loss $0.95, 30-minute max hold. -/
def wPosExit : Position :=
  { chain := "bsc"
    pairAddress := "PAIR1"
    token := "TKN"
    tokenAddress := "TADDR"
    entryPrice := 1
    tokenAmount := 100
    positionSizeUsd := 100
    takeProfit := 5
    stopLoss := 95 / 100
    maxHoldUntil := 1800000
    signal := wSig
    id := "bsc:PAIR1:5"
    status := "open"
    openedAt := 5 }

/-- Concrete snapshot whose price $5.01 crosses the witness position's take
profit. -/
def wSnapTP : Snapshot :=
  { chain := "bsc"
    pairAddress := "PAIR1"
    baseToken := { symbol := "TKN", address := "TADDR" }
    price := { usd := 501 / 100, change5m := 3 }
    volume := { m5 := 4000, h24 := 20000 }
    liquidity := { usd := 6000 }
    avgVolume1h := 1000
    volumeRatio := 4 }

/-- Witness for C5: the $5.01 snapshot against the $1-entry position yields
the take-profit decision carrying the snapshot price. -/
theorem claim_C5_witness :
    checkExitConditions wBotCfg 60000 wPosExit wSnapTP =
      some
        { type := "EXIT_TAKE_PROFIT"
          reason := exitTakeProfitReason wBotCfg
          exitPrice := wSnapTP.price.usd
          profitPercent :=
            jsToFixed2
              ((wSnapTP.price.usd - wPosExit.entryPrice) / wPosExit.entryPrice * 100)
          timestamp := 60000 } :=
  (claim_C5 wBotCfg 60000 wPosExit wSnapTP).1 (by norm_num [wPosExit, wSnapTP])

/-! ## Claims about signal creation -/

/-- C6: when the snapshot price is positive, the take-profit multiplier
exceeds 1, the stop-loss percent lies strictly between 0 and 100, and the max
hold is positive, every signal emitted by `analyzeForSignal` has
`stopLoss < entryPrice < takeProfit` and a max-hold deadline strictly after
its creation timestamp. -/
theorem claim_C6 (isTokenSafe : Snapshot → Bool) (cfg : BotConfig) (now : ℕ)
    (snapshot : Snapshot) (signal : Signal)
    (hp : 0 < snapshot.price.usd) (hm : 1 < cfg.takeProfitMultiplier)
    (hsl0 : 0 < cfg.risk.stopLossPercent) (hsl1 : cfg.risk.stopLossPercent < 100)
    (hh : 0 < cfg.risk.maxHoldMinutes)
    (h : analyzeForSignal isTokenSafe cfg now snapshot = some signal) :
    signal.stopLoss < signal.entryPrice ∧
      signal.entryPrice < signal.takeProfit ∧
      signal.timestamp < signal.maxHoldUntil := by
  unfold analyzeForSignal at h
  split at h
  · exact absurd h (by simp)
  · split at h
    · exact absurd h (by simp)
    · split at h
      · exact absurd h (by simp)
      · dsimp only at h
        split at h
        · rw [Option.some_inj] at h
          subst h
          refine ⟨?_, ?_, ?_⟩
          · have hx : snapshot.price.usd * (1 - cfg.risk.stopLossPercent / 100) <
                snapshot.price.usd * 1 := by
              apply mul_lt_mul_of_pos_left _ hp
              linarith
            simpa using hx
          · have hx : snapshot.price.usd * 1 <
                snapshot.price.usd * cfg.takeProfitMultiplier :=
              mul_lt_mul_of_pos_left hm hp
            simpa using hx
          · have hx : 0 < cfg.risk.maxHoldMinutes * 60 * 1000 := by positivity
            dsimp only
            omega
        · exact absurd h (by simp)

/-- Concrete snapshot that generates `wSig` at time 0: $2 price, 3% 5-minute
move, 4x volume ratio, $6000 liquidity, $20000 daily volume. -/
def wSnapSig : Snapshot :=
  { chain := "bsc"
    pairAddress := "PAIR1"
    baseToken := { symbol := "TKN", address := "TADDR" }
    price := { usd := 2, change5m := 3 }
    volume := { m5 := 4000, h24 := 20000 }
    liquidity := { usd := 6000 }
    avgVolume1h := 1000
    volumeRatio := 4 }

/-- The concrete snapshot `wSnapSig` produces exactly the signal `wSig`. -/
lemma analyzeForSignal_wSnapSig :
    analyzeForSignal (fun _ => true) wBotCfg 0 wSnapSig = some wSig := by
  unfold analyzeForSignal wSnapSig wBotCfg wRiskCfg wSig
  norm_num [MIN_LIQUIDITY_USD, MIN_VOLUME_24H, jsToFixed2, calculateSignalStrength]

/-- Witness for C6 at the concrete snapshot `wSnapSig`. -/
theorem claim_C6_witness :
    wSig.stopLoss < wSig.entryPrice ∧ wSig.entryPrice < wSig.takeProfit ∧
      wSig.timestamp < wSig.maxHoldUntil :=
  claim_C6 (fun _ => true) wBotCfg 0 wSnapSig wSig (by norm_num [wSnapSig])
    (by norm_num [wBotCfg]) (by norm_num [wBotCfg, wRiskCfg])
    (by norm_num [wBotCfg, wRiskCfg]) (by norm_num [wBotCfg, wRiskCfg])
    analyzeForSignal_wSnapSig

/-! ## Claims about the paper trader -/

/-- C8: a successful simulated buy attempt debits exactly the position size
from the chain balance (independent of the slippage draw), hands out
`positionSizeUsd / executionPrice` tokens, and fills at
`entry * (1 + s)` with the slippage fraction `s` drawn from
`[MIN_SLIPPAGE, MAX_SLIPPAGE]`, so the execution price lies within
`[1.000, 1.005]` times the quoted entry price. -/
theorem claim_C8 (rand : ℚ) (now : ℕ) (signal : Signal) (positionSizeUsd : ℚ)
    (st : BotState) (h0 : 0 ≤ rand) (h1 : rand ≤ 1)
    (hq : 0 < signal.entryPrice)
    (hS : positionSizeUsd ≤ getBalance st signal.chain) :
    ∃ st' fill,
      paperBuyAttempt rand false now signal positionSizeUsd st =
        Except.ok (st', fill) ∧
      getBalance st' signal.chain = getBalance st signal.chain - positionSizeUsd ∧
      fill.tokensReceived = positionSizeUsd / fill.executionPrice ∧
      fill.executionPrice =
        signal.entryPrice * (1 + (MIN_SLIPPAGE + rand * (MAX_SLIPPAGE - MIN_SLIPPAGE))) ∧
      1 * signal.entryPrice ≤ fill.executionPrice ∧
      fill.executionPrice ≤ (1005 / 1000) * signal.entryPrice := by
  have hnb : ¬ getBalance st signal.chain < positionSizeUsd := not_lt.mpr hS
  unfold paperBuyAttempt
  rw [if_neg (by simp), if_neg hnb]
  refine ⟨_, _, rfl, ?_, rfl, ?_, ?_, ?_⟩
  · calc
      getBalance
          ((addPosition now (updateBalance st signal.chain (-positionSizeUsd))
              { chain := signal.chain, pairAddress := signal.pairAddress,
                token := signal.token, tokenAddress := signal.tokenAddress,
                entryPrice := calculateSlippage rand signal.entryPrice true,
                tokenAmount :=
                  positionSizeUsd / calculateSlippage rand signal.entryPrice true,
                positionSizeUsd := positionSizeUsd, takeProfit := signal.takeProfit,
                stopLoss := signal.stopLoss, maxHoldUntil := signal.maxHoldUntil,
                signal := signal, id := "", status := "", openedAt := 0 }).1)
          signal.chain =
          getBalance (updateBalance st signal.chain (-positionSizeUsd)) signal.chain :=
        rfl
      _ = getBalance st signal.chain + -positionSizeUsd :=
            getBalance_updateBalance_self _ _ _
      _ = getBalance st signal.chain - positionSizeUsd := by ring
  · unfold calculateSlippage
    simp
  · unfold calculateSlippage MIN_SLIPPAGE MAX_SLIPPAGE
    simp only [if_pos]
    nlinarith
  · unfold calculateSlippage MIN_SLIPPAGE MAX_SLIPPAGE
    simp only [if_pos]
    nlinarith

/-- Concrete state holding the open position `wPosExit` and a $900 chain
balance (the $100 position size already debited by the buy). -/
def wStateC1 : BotState :=
  { balances := [(r"bsc", (900 : ℚ))]
    positions := [(r"bsc:PAIR1:5", wPosExit)]
    trades := []
    totalPnL := 0 }

/-- Concrete daily risk state at the time of the C1 sell. -/
def wDailyRisk : DailyState :=
  { tradeCount := 1, totalPnL := 0, startBalance := 1000, date := wDay }

/-- The concrete simulated sell of `wPosExit` at market price $4 with the
minimal slippage draw. -/
def wSellResult : Except String (BotState × DailyState × SellFill) :=
  paperSellAttempt 0 false 20 wDay wPosExit 4 wManualReason wStateC1 wDailyRisk

/-- C1 fails on the code: on this successful simulated sell the proceeds are
$399.60 and the PnL $299.60, and the chain balance ends at $1599.20 — the
starting $900 plus the proceeds plus the PnL once more — because
`executePaperSell` credits the proceeds and `closePosition` then credits the
PnL again. The balance is not `before + proceeds` = $1299.60. -/
theorem claim_C1_code_bug :
    wSellResult.toOption.map (fun r => getBalance r.1 wPosExit.chain) =
        some (7996 / 5) ∧
      wSellResult.toOption.map (fun r => r.2.2.proceeds) = some (1998 / 5) ∧
      wSellResult.toOption.map (fun r => r.2.2.pnl) = some (1498 / 5) ∧
      (7996 / 5 : ℚ) = 900 + 1998 / 5 + 1498 / 5 ∧
      (7996 / 5 : ℚ) ≠ 900 + 1998 / 5 := by
  have hlook : lookupKey wStateC1.positions wPosExit.id = some wPosExit := by
    simp [wStateC1, wPosExit, lookupKey]
  refine ⟨?_, ?_, ?_, by norm_num, by norm_num⟩ <;>
    · simp [wSellResult, paperSellAttempt, calculateSlippage, MIN_SLIPPAGE,
        MAX_SLIPPAGE, closePosition, hlook, updateBalance, getBalance,
        recordTrade, checkDailyReset, wStateC1, wPosExit, wDailyRisk, lookupKey,
        setKey, eraseKey, Except.toOption]
      norm_num

/-- Witness for C8: buying $100 of `wSig` from the $900 balance with slippage
draw 1/2. -/
theorem claim_C8_witness :
    ∃ st' fill,
      paperBuyAttempt (1 / 2) false 7 wSig 100 wStateEmpty =
        Except.ok (st', fill) ∧
      getBalance st' wSig.chain = getBalance wStateEmpty wSig.chain - 100 ∧
      fill.tokensReceived = 100 / fill.executionPrice ∧
      fill.executionPrice =
        wSig.entryPrice *
          (1 + (MIN_SLIPPAGE + (1 / 2) * (MAX_SLIPPAGE - MIN_SLIPPAGE))) ∧
      1 * wSig.entryPrice ≤ fill.executionPrice ∧
      fill.executionPrice ≤ (1005 / 1000) * wSig.entryPrice :=
  claim_C8 (1 / 2) 7 wSig 100 wStateEmpty (by norm_num) (by norm_num)
    (by norm_num [wSig])
    (by simp [wStateEmpty, wSig, getBalance, lookupKey]; norm_num)

/-! ## Claims about the retry driver -/

/-- Success case of the retry loop: starting at attempt `a`, if the next `m`
invocations fail and invocation `a + m ≤ maxRetries` succeeds, the driver
returns success at attempt `a + m`, having invoked attempts `a, …, a + m` and
slept the backoff delays after each failed attempt. -/
lemma executeWithRetryGo_ok {α : Type} (f : ℕ → Except String α) (N : ℕ)
    (d : ℚ) (v : α) :
    ∀ (m a : ℕ), a + m ≤ N →
      (∀ i, a ≤ i → i < a + m → ∃ e, f i = Except.error e) →
      f (a + m) = Except.ok v →
      executeWithRetryGo f N d a =
        ({ success := true, result := some v, error := none, attempts := a + m },
          List.range' a (m + 1),
          (List.range' a m).map (fun i => d * (3 / 2 : ℚ) ^ (i - 1))) := by
  intro m
  induction m with
  | zero =>
      intro a hle _ hok
      rw [executeWithRetryGo]
      rw [if_pos (by omega)]
      rw [show a + 0 = a from rfl] at hok
      rw [hok]
      simp
  | succ m ih =>
      intro a hle herr hok
      obtain ⟨e, he⟩ := herr a (le_refl a) (by omega)
      rw [executeWithRetryGo]
      rw [if_pos (by omega), he]
      have hlt : a < N := by omega
      rw [if_pos hlt]
      have hrec := ih (a + 1) (by omega)
        (fun i h1 h2 => herr i (by omega) (by omega))
        (by rw [show a + 1 + m = a + (m + 1) from by omega]; exact hok)
      rw [hrec]
      refine Prod.ext_iff.mpr ⟨?_, Prod.ext_iff.mpr ⟨?_, ?_⟩⟩
      · show RetryResult.mk true (some v) none (a + 1 + m) =
          RetryResult.mk true (some v) none (a + (m + 1))
        rw [show a + 1 + m = a + (m + 1) from by omega]
      · show a :: List.range' (a + 1) (m + 1) = List.range' a (m + 1 + 1)
        symm
        rw [List.range'_succ]
      · show
          [d * (3 / 2 : ℚ) ^ (a - 1)] ++
              (List.range' (a + 1) m).map (fun i => d * (3 / 2 : ℚ) ^ (i - 1)) =
            (List.range' a (m + 1)).map (fun i => d * (3 / 2 : ℚ) ^ (i - 1))
        symm
        rw [List.range'_succ, List.map_cons, List.singleton_append]

/-- Failure case of the retry loop: starting at attempt `a = N + 1 - m`, if
every invocation from `a` through `N` fails, the driver returns the failure
result with `attempts = N`, invoking attempts `a, …, N` and sleeping after
every failed attempt except the last. -/
lemma executeWithRetryGo_fail {α : Type} (f : ℕ → Except String α) (N : ℕ)
    (d : ℚ) :
    ∀ (m a : ℕ), a + m = N + 1 →
      (∀ i, a ≤ i → i ≤ N → ∃ e, f i = Except.error e) →
      executeWithRetryGo f N d a =
        ({ success := false, result := none, error := some maxRetriesMsg,
            attempts := N },
          List.range' a (N + 1 - a),
          (List.range' a (N - a)).map (fun i => d * (3 / 2 : ℚ) ^ (i - 1))) := by
  intro m
  induction m with
  | zero =>
      intro a ha _
      rw [executeWithRetryGo]
      rw [if_neg (by omega)]
      have h1 : N + 1 - a = 0 := by omega
      have h2 : N - a = 0 := by omega
      rw [h1, h2]
      simp
  | succ m ih =>
      intro a ha herr
      obtain ⟨e, he⟩ := herr a (le_refl a) (by omega)
      rw [executeWithRetryGo]
      rw [if_pos (by omega), he]
      have hrec := ih (a + 1) (by omega)
        (fun i h1 h2 => herr i (by omega) h2)
      rw [hrec]
      rcases Nat.lt_or_ge a N with hlt | hge
      · rw [if_pos hlt]
        refine Prod.ext_iff.mpr ⟨rfl, Prod.ext_iff.mpr ⟨?_, ?_⟩⟩
        · show a :: List.range' (a + 1) (N + 1 - (a + 1)) = List.range' a (N + 1 - a)
          have h3 : N + 1 - a = (N + 1 - (a + 1)) + 1 := by omega
          symm
          rw [h3, List.range'_succ]
        · show
            [d * (3 / 2 : ℚ) ^ (a - 1)] ++
                (List.range' (a + 1) (N - (a + 1))).map
                  (fun i => d * (3 / 2 : ℚ) ^ (i - 1)) =
              (List.range' a (N - a)).map (fun i => d * (3 / 2 : ℚ) ^ (i - 1))
          have h3 : N - a = (N - (a + 1)) + 1 := by omega
          symm
          rw [h3, List.range'_succ, List.map_cons, List.singleton_append]
      · have haN : a = N := by omega
        rw [if_neg (by omega)]
        refine Prod.ext_iff.mpr ⟨rfl, Prod.ext_iff.mpr ⟨?_, ?_⟩⟩
        · show a :: List.range' (a + 1) (N + 1 - (a + 1)) = List.range' a (N + 1 - a)
          have h3 : N + 1 - a = (N + 1 - (a + 1)) + 1 := by omega
          symm
          rw [h3, List.range'_succ]
        · show
            [] ++
                (List.range' (a + 1) (N - (a + 1))).map
                  (fun i => d * (3 / 2 : ℚ) ^ (i - 1)) =
              (List.range' a (N - a)).map (fun i => d * (3 / 2 : ℚ) ^ (i - 1))
          have h3 : N - a = 0 := by omega
          have h4 : N - (a + 1) = 0 := by omega
          rw [h3, h4]
          simp

/-- C4: with `maxRetries = N ≥ 1`, an operation that fails on attempts
`1 … k − 1` and succeeds on attempt `k ≤ N` makes `executeWithRetry` return
`success = true` with `attempts = k` after invoking exactly attempts `1 … k`,
sleeping `delayMs * 1.5 ^ (attempt − 1)` after each failed attempt; an
operation that fails on every attempt is invoked exactly `N` times (never
more) and the driver returns `success = false` with `attempts = N`, carrying
the failure in the result instead of raising it. -/
theorem claim_C4 {α : Type} (f : ℕ → Except String α) (N : ℕ) (d : ℚ)
    (hN : 1 ≤ N) :
    (∀ k v, 1 ≤ k → k ≤ N →
      (∀ i, 1 ≤ i → i < k → ∃ e, f i = Except.error e) →
      f k = Except.ok v →
      executeWithRetry f N d =
        ({ success := true, result := some v, error := none, attempts := k },
          List.range' 1 k,
          (List.range' 1 (k - 1)).map (fun i => d * (3 / 2 : ℚ) ^ (i - 1)))) ∧
    ((∀ i, 1 ≤ i → i ≤ N → ∃ e, f i = Except.error e) →
      executeWithRetry f N d =
        ({ success := false, result := none, error := some maxRetriesMsg,
            attempts := N },
          List.range' 1 N,
          (List.range' 1 (N - 1)).map (fun i => d * (3 / 2 : ℚ) ^ (i - 1)))) := by
  constructor
  · intro k v hk1 hkN herr hok
    have h := executeWithRetryGo_ok f N d v (k - 1) 1 (by omega)
      (fun i h1 h2 => herr i h1 (by omega))
      (by rw [show 1 + (k - 1) = k from by omega]; exact hok)
    rw [executeWithRetry, h]
    refine Prod.ext_iff.mpr ⟨?_, Prod.ext_iff.mpr ⟨?_, rfl⟩⟩
    · show RetryResult.mk true (some v) none (1 + (k - 1)) =
        RetryResult.mk true (some v) none k
      rw [show 1 + (k - 1) = k from by omega]
    · show List.range' 1 (k - 1 + 1) = List.range' 1 k
      rw [show k - 1 + 1 = k from by omega]
  · intro herr
    have h := executeWithRetryGo_fail f N d N 1 (by omega) herr
    rw [executeWithRetry, h]
    refine Prod.ext_iff.mpr ⟨rfl, Prod.ext_iff.mpr ⟨?_, rfl⟩⟩
    show List.range' 1 (N + 1 - 1) = List.range' 1 N
    rw [show N + 1 - 1 = N from by omega]

/-- Concrete operation for the C4 witness: fails on the first two attempts,
succeeds on the third. -/
def wRetryFn : ℕ → Except String ℕ :=
  fun i => if i = 3 then Except.ok 1 else Except.error simulatedFailureMsg

/-- Witness for C4: with `maxRetries = 3` and base delay 2, `wRetryFn`
succeeds on attempt 3 after backoffs `2 * 1.5^0` and `2 * 1.5^1`. -/
theorem claim_C4_witness :
    executeWithRetry wRetryFn 3 2 =
      ({ success := true, result := some 1, error := none, attempts := 3 },
        List.range' 1 3,
        (List.range' 1 2).map (fun i => 2 * (3 / 2 : ℚ) ^ (i - 1))) :=
  (claim_C4 wRetryFn 3 2 (by norm_num)).1 3 1 (by norm_num) (by norm_num)
    (by
      intro i h1 h2
      interval_cases i <;> exact ⟨simulatedFailureMsg, rfl⟩)
    rfl

/-! ## Claims about the candle aggregator -/

/-- A list with a known last element splits as an append. -/
lemma getLast?_eq_some_ex {α : Type} {l : List α} {a : α}
    (h : l.getLast? = some a) : ∃ l', l = l' ++ [a] := by
  induction l using List.reverseRecOn with
  | nil => simp at h
  | append_singleton l' b _ =>
      rw [List.getLast?_concat] at h
      injection h with h
      subst h
      exact ⟨l', rfl⟩

/-- The aligned period start is monotone in the wall clock. -/
lemma alignPeriod_mono {t t' : ℕ} (h : t ≤ t') : alignPeriod t ≤ alignPeriod t' :=
  Nat.mul_le_mul_right _ (Nat.div_le_div_right h)

/-- One `updateCandle` step preserves the candle-list invariant when the
clock does not go backwards. -/
lemma updateCandle_inv {t t' : ℕ} (pu vm : ℚ) {cs : List Candle} (ht : t ≤ t')
    (h : CandleInv t cs) : CandleInv t' (updateCandle t' pu vm cs) := by
  obtain ⟨hlen, hchain, hper⟩ := h
  have halign : alignPeriod t ≤ alignPeriod t' := alignPeriod_mono ht
  rcases hL : cs.getLast? with _ | lc
  · have hnil : cs = [] := List.getLast?_eq_none_iff.mp hL
    subst hnil
    simp only [updateCandle, List.getLast?_nil, List.nil_append]
    have hone : ¬ ([freshCandle t' pu vm].length > MAX_CANDLES) := by
      simp [MAX_CANDLES]
    rw [if_neg hone]
    refine ⟨by simp [MAX_CANDLES], List.chain'_singleton _, ?_⟩
    intro c hc
    simp at hc
    subst hc
    simp [freshCandle]
  · obtain ⟨l', rfl⟩ := getLast?_eq_some_ex hL
    have hlc_le : lc.periodStart ≤ alignPeriod t := hper lc (by simp)
    simp only [updateCandle, hL]
    by_cases heq : lc.periodStart = alignPeriod t'
    · rw [if_pos heq, List.dropLast_concat]
      refine ⟨by simpa using hlen, ?_, ?_⟩
      · rw [List.chain'_append] at hchain ⊢
        obtain ⟨h1, _, h3⟩ := hchain
        refine ⟨h1, List.chain'_singleton _, ?_⟩
        intro x hx y hy
        simp at hy
        subst hy
        have hx2 := h3 x hx lc (by simp)
        simpa [mutateCandle] using hx2
      · intro c hc
        rcases List.mem_append.mp hc with hc | hc
        · exact le_trans (hper c (List.mem_append_left _ hc)) halign
        · simp at hc
          subst hc
          simp only [mutateCandle]
          exact le_trans hlc_le halign
    · rw [if_neg heq]
      have hlt : lc.periodStart < alignPeriod t' :=
        lt_of_le_of_ne (le_trans hlc_le halign) heq
      have hchain2 :
          List.Chain' (fun a b => a.periodStart < b.periodStart)
            ((l' ++ [lc]) ++ [freshCandle t' pu vm]) := by
        rw [List.chain'_append]
        refine ⟨hchain, List.chain'_singleton _, ?_⟩
        intro x hx y hy
        rw [List.getLast?_concat] at hx
        simp at hx hy
        subst hx
        subst hy
        simpa [freshCandle] using hlt
      have hmem2 :
          ∀ c ∈ (l' ++ [lc]) ++ [freshCandle t' pu vm],
            c.periodStart ≤ alignPeriod t' := by
        intro c hc
        rcases List.mem_append.mp hc with hc | hc
        · exact le_trans (hper c hc) halign
        · simp at hc
          subst hc
          simp [freshCandle]
      by_cases hlen2 : ((l' ++ [lc]) ++ [freshCandle t' pu vm]).length > MAX_CANDLES
      · rw [if_pos hlen2]
        refine ⟨?_, hchain2.tail, fun c hc => hmem2 c (List.mem_of_mem_tail hc)⟩
        have hl3 : ((l' ++ [lc]) ++ [freshCandle t' pu vm]).length =
            (l' ++ [lc]).length + 1 := by simp
        rw [List.length_tail]
        omega
      · rw [if_neg hlen2]
        exact ⟨Nat.le_of_not_lt hlen2, hchain2, hmem2⟩

/-- Folding any clock-monotone update sequence through `updateCandle`
preserves the candle-list invariant. -/
lemma applyUpdates_inv :
    ∀ (updates : List (ℕ × ℚ × ℚ)) (t : ℕ) (cs : List Candle),
      CandleInv t cs →
      List.Chain (fun a b => a ≤ b) t (updates.map Prod.fst) →
      ∃ t'', CandleInv t'' (applyUpdates cs updates) := by
  intro updates
  induction updates with
  | nil =>
      intro t cs h _
      exact ⟨t, h⟩
  | cons u rest ih =>
      intro t cs h hchain
      rw [List.map_cons, List.chain_cons] at hchain
      exact ih u.1 _ (updateCandle_inv u.2.1 u.2.2 hchain.1 h) hchain.2

/-- C9: starting from an empty store, any clock-monotone sequence of snapshot
updates leaves at most `MAX_CANDLES` candles with pairwise distinct period
starts (so at most one candle matches any aligned period, in particular the
current one); moreover a single update whose aligned period matches the
newest candle rewrites that candle's high/low/close/volume in place, while a
mismatch appends a fresh candle and drops the oldest once the bound is
exceeded. -/
theorem claim_C9 :
    (∀ (t0 : ℕ) (updates : List (ℕ × ℚ × ℚ)),
      List.Chain (fun a b => a ≤ b) t0 (updates.map Prod.fst) →
      (applyUpdates [] updates).length ≤ MAX_CANDLES ∧
        ∀ p : ℕ, ((applyUpdates [] updates).map Candle.periodStart).count p ≤ 1) ∧
    (∀ (now : ℕ) (pu vm : ℚ) (cs : List Candle) (lc : Candle),
      cs.getLast? = some lc →
      (lc.periodStart = alignPeriod now →
        updateCandle now pu vm cs = cs.dropLast ++ [mutateCandle now pu vm lc]) ∧
      (lc.periodStart ≠ alignPeriod now →
        updateCandle now pu vm cs =
          if (cs ++ [freshCandle now pu vm]).length > MAX_CANDLES then
            (cs ++ [freshCandle now pu vm]).tail
          else cs ++ [freshCandle now pu vm])) := by
  constructor
  · intro t0 updates hmono
    obtain ⟨t'', hlen, hchain, _⟩ :=
      applyUpdates_inv updates t0 []
        ⟨by simp [MAX_CANDLES], List.chain'_nil, by simp⟩ hmono
    refine ⟨hlen, ?_⟩
    have hchain2 :
        List.Chain' (fun a b : ℕ => a < b)
          ((applyUpdates [] updates).map Candle.periodStart) :=
      (List.chain'_map _).mpr hchain
    have hnodup : ((applyUpdates [] updates).map Candle.periodStart).Nodup :=
      (List.chain'_iff_pairwise.mp hchain2).imp (fun h => Nat.ne_of_lt h)
    exact List.nodup_iff_count_le_one.mp hnodup
  · intro now pu vm cs lc hL
    constructor
    · intro heq
      simp only [updateCandle, hL]
      rw [if_pos heq]
    · intro hne
      simp only [updateCandle, hL]
      rw [if_neg hne]

/-- Concrete clock-monotone update sequence for the C9 witness: two updates
inside period 0 and one in the period starting at 300000 ms. -/
def wUpdates : List (ℕ × ℚ × ℚ) := [(0, 1, 10), (100, 2, 20), (300000, 3, 30)]

/-- Witness for C9 at the concrete update sequence `wUpdates`. -/
theorem claim_C9_witness :
    (applyUpdates [] wUpdates).length ≤ MAX_CANDLES ∧
      ((applyUpdates [] wUpdates).map Candle.periodStart).count 300000 ≤ 1 :=
  ⟨(claim_C9.1 0 wUpdates (by simp [wUpdates, List.chain_cons])).1,
    (claim_C9.1 0 wUpdates (by simp [wUpdates, List.chain_cons])).2 300000⟩
